import Mathlib

/-!
Shallow embedding of the Realtime Session Orchestrator of the Art_critic
repository: the Visitor page's WebRTC connection code (the file given as
src/unnamed/part_000, whose line numbers the claims cite) together with the
server-side instruction builder from src/server/index.js.

The JavaScript is event-driven and asynchronous; here each handler and the
body of `startConversation` are modelled as pure functions over an explicit
component state, with every external outcome (credential payload, microphone
permission, HTTP response of the negotiation endpoint, image fetch) passed in
as an explicit parameter.  Timestamps prepended to log lines by `addLog` are
wall-clock values and are omitted; a log entry is modelled by its message.
-/

namespace ArtCritic

/-- Does `pat` occur as a contiguous run of `l`?  Checked at every suffix. -/
def listHasInfix (pat : List Char) : List Char → Bool
  | [] => pat.isEmpty
  | c :: rest => pat.isPrefixOf (c :: rest) || listHasInfix pat rest

/-- JS `String.prototype.includes`: substring containment. -/
def strIncludes (s pat : String) : Bool :=
  listHasInfix pat.toList s.toList

/-- JS `s || dflt` for strings: the empty string is falsy. -/
def jsOr (s dflt : String) : String :=
  if s == "" then dflt else s

/-- Lifecycle status of the Visitor component
(src/unnamed/part_000 line 10: loading, ready, connecting, connected, error). -/
inductive Status
  | loading
  | ready
  | connecting
  | connected
  | error
  deriving DecidableEq, Repr

/-- A local media track obtained from `getUserMedia`.  `stopped` records
whether `track.stop()` has been invoked on it. -/
structure MediaTrack where
  stopped : Bool
  deriving DecidableEq, Repr

/-- An RTC session description, as passed to `setRemoteDescription`
(src/unnamed/part_000 lines 234-237). -/
structure SessionDescription where
  type : String
  sdp : String
  deriving DecidableEq, Repr

/-- The peer connection.  `id` distinguishes distinct `new RTCPeerConnection()`
objects; `closed` is set by `close()`.  Closing a peer connection does NOT
invoke `stop()` on the `MediaStreamTrack`s added to it: local capture tracks
stay live until `track.stop()` is called, which this source never does. -/
structure RTCPeerConnection where
  id : Nat
  closed : Bool
  localTracks : List MediaTrack
  localDesc : Option String
  remoteDesc : Option SessionDescription
  deriving DecidableEq, Repr

/-- The control data channel created by `pc.createDataChannel('oai-events')`. -/
structure RTCDataChannel where
  closed : Bool
  deriving DecidableEq, Repr

/-- The painting record served by the backend and consumed by the Visitor
page (the resolved ArtworkContext). -/
structure Painting where
  id : String
  slug : Option String
  title : String
  description : String
  facts : String
  imageUrl : Option String
  systemInstructions : String
  deriving DecidableEq, Repr

/-- The component state visible to the claims: React state (`status`,
`errorMsg`, `logs`) and the mutable refs (`pcRef`, `dcRef`).  `oldPCs` /
`oldDCs` collect every object a ref stopped pointing at, in its state at that
moment, so that leaks are observable; `nextPCId` numbers fresh peer
connections. -/
structure VisitorState where
  status : Status
  errorMsg : String
  logs : List String
  pcRef : Option RTCPeerConnection
  dcRef : Option RTCDataChannel
  oldPCs : List RTCPeerConnection
  oldDCs : List RTCDataChannel
  nextPCId : Nat
  deriving DecidableEq, Repr

/-- `addLog(msg)` (src/unnamed/part_000 lines 18-21), timestamp omitted. -/
def addLogS (st : VisitorState) (msg : String) : VisitorState :=
  { st with logs := st.logs ++ [msg] }

/-- Dropping a ref: the object it pointed at, unmodified, joins the old list. -/
def pushPC (old : List RTCPeerConnection) :
    Option RTCPeerConnection → List RTCPeerConnection
  | none => old
  | some pc => old ++ [pc]

def pushDC (old : List RTCDataChannel) :
    Option RTCDataChannel → List RTCDataChannel
  | none => old
  | some dc => old ++ [dc]

/-- Number of unclosed peer connections reachable in the state. -/
def openTransports (st : VisitorState) : Nat :=
  (match st.pcRef with
   | some pc => if pc.closed then 0 else 1
   | none => 0)
  + (st.oldPCs.filter (fun pc => !pc.closed)).length

/-- Number of unclosed data channels reachable in the state. -/
def openDataChannels (st : VisitorState) : Nat :=
  (match st.dcRef with
   | some dc => if dc.closed then 0 else 1
   | none => 0)
  + (st.oldDCs.filter (fun dc => !dc.closed)).length

/-- Unstopped local media tracks held by one peer connection. -/
def liveTracksOfPC (pc : RTCPeerConnection) : Nat :=
  (pc.localTracks.filter (fun t => !t.stopped)).length

/-- Unstopped local media tracks across the whole state. -/
def liveLocalTracks (st : VisitorState) : Nat :=
  (match st.pcRef with
   | some pc => liveTracksOfPC pc
   | none => 0)
  + (st.oldPCs.map liveTracksOfPC).sum

/-! ## Server-side instruction builder (src/server/index.js lines 89-97) -/

/-- The `systemInstructions` template literal built by the upload route,
reproduced exactly (including the trailing blanks before three of the line
breaks and the `||` fallbacks for empty `facts` / `description`). -/
def systemInstructions (title facts description : String) : String :=
  "You are an expert art historian analyzing the painting '" ++ title ++ "'. \n" ++
  "Here are the key facts about this artwork:\n" ++
  jsOr facts "No specific facts provided." ++ "\n" ++
  "Description: " ++ jsOr description "" ++ "\n" ++
  "\n" ++
  "The user is looking at this painting right now. \n" ++
  "Your goal is to be engaging, educational, and brief. \n" ++
  "Do not give long lectures. Encourage the user to observe details in the painting.\n" ++
  "Answer any questions they have based on your knowledge and the visual context provided."

/-! ## Control events sent on the data channel -/

/-- The `turn_detection` object of the `session.update` payload
(src/unnamed/part_000 lines 131-136). -/
structure TurnDetection where
  type : String
  threshold : Rat
  prefix_padding_ms : Nat
  silence_duration_ms : Nat
  deriving DecidableEq, Repr

/-- The `session` object of the `session.update` payload
(src/unnamed/part_000 lines 125-137). -/
structure SessionConfig where
  modalities : List String
  instructions : String
  voice : String
  input_audio_format : String
  output_audio_format : String
  turn_detection : TurnDetection
  deriving DecidableEq, Repr

/-- One block of a conversation item's `content` list
(src/unnamed/part_000 lines 166-178), as a tagged union. -/
inductive ContentBlock
  | input_text (text : String)
  | input_image (format : String) (data : String)
  deriving DecidableEq, Repr

/-- The `item` object of a `conversation.item.create` payload
(src/unnamed/part_000 lines 163-179). -/
structure ConvItem where
  type : String
  role : String
  content : List ContentBlock
  deriving DecidableEq, Repr

/-- An outbound control event, discriminated by its `type` string. -/
inductive ControlEvent
  | session_update (session : SessionConfig)
  | conversation_item_create (item : ConvItem)
  | response_create
  deriving DecidableEq, Repr

/-- The `type` tag a control event is serialized with. -/
def ControlEvent.kind : ControlEvent → String
  | .session_update _ => "session.update"
  | .conversation_item_create _ => "conversation.item.create"
  | .response_create => "response.create"

/-- Result of fetching the painting image and reading it as a data URL:
`contentType` is `blob.type`, `base64` the payload after the comma. -/
structure ImageBlob where
  contentType : String
  base64 : String
  deriving DecidableEq, Repr

/-- Format detection (src/unnamed/part_000 lines 147-149): png when the blob
says so, jpeg by default. -/
def detectFormat (blob : ImageBlob) : String :=
  if blob.contentType == "image/png" then "png" else "jpeg"

/-- The session-configuration payload assembled for a painting
(src/unnamed/part_000 lines 123-138). -/
def sessionConfigOf (p : Painting) : SessionConfig :=
  { modalities := ["text", "audio"]
    instructions := p.systemInstructions
    voice := "alloy"
    input_audio_format := "pcm16"
    output_audio_format := "pcm16"
    turn_detection :=
      { type := "server_vad"
        threshold := 0.5
        prefix_padding_ms := 300
        silence_duration_ms := 200 } }

/-- The `dc.onopen` handler (src/unnamed/part_000 lines 118-192).  Returns
the ordered list of control events sent on the channel together with the
updated component state.  `imgFetch` is the outcome of the
fetch-blob-and-encode sequence (lines 144-156); an exception anywhere in the
`try` block lands in the `catch` of lines 188-190, which only logs — note
that the `response.create` send of line 185 sits INSIDE that `try` block and
inside the `if (painting.imageUrl)` guard. -/
def dc_onopen (p : Painting) (imgFetch : Except String ImageBlob)
    (st : VisitorState) : List ControlEvent × VisitorState :=
  let st := addLogS st "✓ Data channel opened"
  let st := addLogS st "Sending session instructions..."
  let sent := [ControlEvent.session_update (sessionConfigOf p)]
  match p.imageUrl with
  | none => (sent, st)
  | some _ =>
    let st := addLogS st "Fetching painting image..."
    match imgFetch with
    | .error e => (sent, addLogS st ("Image error: " ++ e))
    | .ok blob =>
      let format := detectFormat blob
      let st := addLogS st ("✓ Image loaded (" ++ format ++ ")")
      let item : ConvItem :=
        { type := "message"
          role := "user"
          content :=
            [ContentBlock.input_text
               "Here is the painting I'm looking at. Please help me understand it.",
             ContentBlock.input_image format blob.base64] }
      let sent := sent ++ [ControlEvent.conversation_item_create item]
      let st := addLogS st "✓ Image sent to model"
      let sent := sent ++ [ControlEvent.response_create]
      let st := addLogS st "✓ Requested initial response"
      (sent, st)

/-- The complete outbound trace of a channel: the only `dc.send` calls in the
source occur inside the `dc.onopen` callback, which the channel fires on its
transition to the open state; before that transition nothing is sent. -/
def sentEvents (channelOpen : Bool) (p : Painting)
    (imgFetch : Except String ImageBlob) (st : VisitorState) :
    List ControlEvent :=
  if channelOpen then (dc_onopen p imgFetch st).1 else []

/-- A message decoded from an inbound data-channel payload; only its `type`
tag is consulted. -/
structure InboundMsg where
  type : String
  deriving DecidableEq, Repr

/-- The `dc.onmessage` handler (src/unnamed/part_000 lines 194-204).
`parsed` is the outcome of `JSON.parse(e.data)`: `none` models a payload on
which the parse throws, which the `catch` of lines 201-203 swallows with no
action.  Streaming delta events are suppressed from the log. -/
def dc_onmessage (parsed : Option InboundMsg) (st : VisitorState) :
    VisitorState :=
  match parsed with
  | none => st
  | some msg =>
    if !(strIncludes msg.type "audio.delta")
        && !(strIncludes msg.type "audio_transcript.delta") then
      addLogS st ("Event: " ++ msg.type)
    else
      st

/-- The `pc.onconnectionstatechange` handler (src/unnamed/part_000 lines
89-94): logs the transport state and reports `connected` exactly when the
transport itself reports `connected`. -/
def pc_onconnectionstatechange (connectionState : String)
    (st : VisitorState) : VisitorState :=
  let st := addLogS st ("Connection State: " ++ connectionState)
  if connectionState == "connected" then
    { st with status := .connected }
  else
    st

/-! ## startConversation (src/unnamed/part_000 lines 66-247) -/

/-- The parsed `client_secret` member of the broker's JSON payload; `value`
is absent when the field is missing. -/
structure ClientSecret where
  value : Option String
  deriving DecidableEq, Repr

/-- The parsed JSON payload returned by `/api/session`. -/
structure TokenData where
  client_secret : Option ClientSecret
  deriving DecidableEq, Repr

/-- The guard of line 77: `!tokenData.client_secret ||
!tokenData.client_secret.value` — a missing member or a falsy (absent or
empty) `value` fails it. -/
def hasClientSecret (td : TokenData) : Bool :=
  match td.client_secret with
  | none => false
  | some cs =>
    match cs.value with
    | none => false
    | some v => !(v == "")

/-- The HTTP response of the realtime negotiation endpoint
(src/unnamed/part_000 lines 216-230). -/
structure HttpResponse where
  ok : Bool
  status : Nat
  body : String
  deriving DecidableEq, Repr

/-- Outcomes of the external suspension points of one `startConversation`
run: the broker payload, `getUserMedia` (error carries the thrown message),
and the negotiation endpoint's response. -/
structure StartEnv where
  tokenData : TokenData
  micResult : Except String Unit
  sdpResponse : HttpResponse
  deriving Repr

/-- What one `startConversation` call did: the resulting component state,
how many times `new RTCPeerConnection()` ran, and whether an offer was
POSTed to the realtime endpoint. -/
structure StartOutcome where
  state : VisitorState
  pcsOpened : Nat
  offerSubmitted : Bool
  tokenQuery : String
  deriving Repr

/-- Line 72: `painting.slug ? slug=... : paintingId=...` — the query string
that binds the artwork into the credential request (a falsy slug, absent or
empty, falls back to the id). -/
def tokenQueryParam (p : Painting) : String :=
  match p.slug with
  | some s => if s == "" then "paintingId=" ++ p.id else "slug=" ++ s
  | none => "paintingId=" ++ p.id

/-- The `catch` block of lines 241-246: log, move to `error`, capture the
message. -/
def catchErr (st : VisitorState) (msg : String) : VisitorState :=
  let st := addLogS st ("ERROR: " ++ msg)
  { st with status := .error, errorMsg := msg }

/-- Apply `f` to the peer connection currently in `pcRef` (the handle the
running call just installed). -/
def modifyPC (st : VisitorState)
    (f : RTCPeerConnection → RTCPeerConnection) : VisitorState :=
  match st.pcRef with
  | some pc => { st with pcRef := some (f pc) }
  | none => st

/-- `startConversation` (src/unnamed/part_000 lines 66-247), modelled step
by step.  Note there is NO status guard at the top: the body runs from
whatever state it is called in.  `pcRef.current = pc` (line 85) and
`dcRef.current = dc` (line 116) overwrite the refs without closing the
previous objects.  On the success path the final status is still
`connecting`: nothing after `setRemoteDescription` touches `status`. -/
def startConversation (env : StartEnv) (p : Painting)
    (st : VisitorState) : StartOutcome :=
  let st := { st with status := .connecting }
  let st := addLogS st "Starting WebRTC connection..."
  let q := tokenQueryParam p
  let st := addLogS st "Requesting ephemeral token..."
  if !(hasClientSecret env.tokenData) then
    -- line 78: throw new Error('Failed to get ephemeral token')
    { state := catchErr st "Failed to get ephemeral token"
      pcsOpened := 0
      offerSubmitted := false
      tokenQuery := q }
  else
    let st := addLogS st "✓ Ephemeral token received"
    -- lines 84-85: const pc = new RTCPeerConnection(); pcRef.current = pc
    let pc : RTCPeerConnection :=
      { id := st.nextPCId, closed := false, localTracks := []
        localDesc := none, remoteDesc := none }
    let st := { st with
      oldPCs := pushPC st.oldPCs st.pcRef
      pcRef := some pc
      nextPCId := st.nextPCId + 1 }
    let st := addLogS st "Requesting microphone access..."
    match env.micResult with
    | .error e =>
      { state := catchErr st e, pcsOpened := 1, offerSubmitted := false
        tokenQuery := q }
    | .ok _ =>
      let st := addLogS st "✓ Microphone access granted"
      -- line 112: stream.getTracks().forEach(track => pc.addTrack(track, stream))
      let st := modifyPC st fun pc =>
        { pc with localTracks := pc.localTracks ++ [{ stopped := false }] }
      -- lines 115-116: const dc = pc.createDataChannel('oai-events'); dcRef.current = dc
      let st := { st with
        oldDCs := pushDC st.oldDCs st.dcRef
        dcRef := some { closed := false } }
      let st := addLogS st "Creating SDP offer..."
      -- lines 211-212: createOffer / setLocalDescription
      let st := modifyPC st fun pc => { pc with localDesc := some "offer" }
      let st := addLogS st "Sending offer to OpenAI..."
      -- lines 216-223: the offer is POSTed to the realtime endpoint here
      if !env.sdpResponse.ok then
        -- lines 225-228: throw with the endpoint's status and body
        { state := catchErr st ("SDP exchange failed: "
            ++ toString env.sdpResponse.status ++ " - " ++ env.sdpResponse.body)
          pcsOpened := 1
          offerSubmitted := true
          tokenQuery := q }
      else
        let st := addLogS st "✓ Received SDP answer from OpenAI"
        -- lines 234-237: setRemoteDescription({type:'answer', sdp: answerSdp})
        let st := modifyPC st fun pc =>
          { pc with remoteDesc := some { type := "answer", sdp := env.sdpResponse.body } }
        let st := addLogS st "✓ WebRTC connection established!"
        { state := st, pcsOpened := 1, offerSubmitted := true, tokenQuery := q }

/-- `stopConversation` (src/unnamed/part_000 lines 249-260): close and null
both refs, return to `ready`.  No `track.stop()` is ever called, so local
media tracks keep whatever liveness they had. -/
def stopConversation (st : VisitorState) : VisitorState :=
  let st :=
    match st.pcRef with
    | some pc =>
      { st with pcRef := none, oldPCs := st.oldPCs ++ [{ pc with closed := true }] }
    | none => st
  let st :=
    match st.dcRef with
    | some dc =>
      { st with dcRef := none, oldDCs := st.oldDCs ++ [{ dc with closed := true }] }
    | none => st
  let st := { st with status := .ready }
  addLogS st "Connection closed"

/-- The Start Conversation button (src/unnamed/part_000 lines 276-291) is
rendered exactly when the status is `ready`; it is the only UI path into
`startConversation`. -/
def startButtonRendered (st : VisitorState) : Bool :=
  st.status == Status.ready

/-! ## Concrete fixtures -/

/-- The state the component reaches once the painting has loaded. -/
def readyState : VisitorState :=
  { status := .ready, errorMsg := "", logs := [], pcRef := none
    dcRef := none, oldPCs := [], oldDCs := [], nextPCId := 0 }

/-- A mid-session state with the status reported as connected. -/
def connectedState : VisitorState :=
  { readyState with status := .connected }

/-- The spec's end-to-end artwork: title "Starry Night", facts
"Oil on canvas, 1889", no image reference. -/
def paintingStarry : Painting :=
  { id := "p1", slug := some "starry-night", title := "Starry Night"
    description := "", facts := "Oil on canvas, 1889", imageUrl := none
    systemInstructions := systemInstructions "Starry Night" "Oil on canvas, 1889" "" }

/-- The same artwork carrying an image reference. -/
def paintingStarryImg : Painting :=
  { paintingStarry with imageUrl := some "https://example.org/uploads/starry.png" }

/-- A run in which every external step succeeds. -/
def envGood : StartEnv :=
  { tokenData := { client_secret := some { value := some "ek_abc123" } }
    micResult := .ok ()
    sdpResponse := { ok := true, status := 200, body := "v=0 answer-sdp" } }

/-- A run in which the broker's payload carries no `client_secret`. -/
def envNoSecret : StartEnv :=
  { envGood with tokenData := { client_secret := none } }

/-- A run in which the negotiation endpoint rejects the offer. -/
def envSdpFail : StartEnv :=
  { envGood with sdpResponse := { ok := false, status := 401, body := "Unauthorized" } }

/-- The state after one fully successful `startConversation` from ready. -/
def afterStart : VisitorState :=
  (startConversation envGood paintingStarry readyState).state

/-! ## Helper lemmas -/

/-- The outbound trace of `dc.onopen` has one of exactly two shapes: the
configuration alone, or configuration, item, response in that order. -/
theorem dc_onopen_shape (p : Painting) (f : Except String ImageBlob)
    (st : VisitorState) :
    (dc_onopen p f st).1 = [ControlEvent.session_update (sessionConfigOf p)]
    ∨ ∃ item, (dc_onopen p f st).1 =
        [ControlEvent.session_update (sessionConfigOf p),
         ControlEvent.conversation_item_create item,
         ControlEvent.response_create] := by
  cases hp : p.imageUrl with
  | none => left; simp [dc_onopen, hp]
  | some u =>
    cases f with
    | error e => left; simp [dc_onopen, hp]
    | ok blob =>
      right
      refine ⟨{ type := "message", role := "user",
                content := [ContentBlock.input_text
                  "Here is the painting I'm looking at. Please help me understand it.",
                  ContentBlock.input_image (detectFormat blob) blob.base64] }, ?_⟩
      simp [dc_onopen, hp]

/-- Filtering for unclosed peer connections over an all-closed list is empty. -/
theorem filter_open_pc_nil {l : List RTCPeerConnection}
    (h : ∀ pc ∈ l, pc.closed = true) :
    l.filter (fun pc => !pc.closed) = [] := by
  rw [List.filter_eq_nil_iff]
  intro a ha
  simp [h a ha]

/-- Filtering for unclosed data channels over an all-closed list is empty. -/
theorem filter_open_dc_nil {l : List RTCDataChannel}
    (h : ∀ dc ∈ l, dc.closed = true) :
    l.filter (fun dc => !dc.closed) = [] := by
  rw [List.filter_eq_nil_iff]
  intro a ha
  simp [h a ha]

/-! ## Claim theorems -/

/-- C1, counterexample.  From the `connecting` state (reached by a successful
`startConversation` from `ready`), a second call to `startConversation` is
NOT a no-op: it creates one more peer connection (not zero) and replaces the
existing handle in `pcRef`. -/
theorem c1_second_call_counterexample :
    afterStart.status = Status.connecting
    ∧ (startConversation envGood paintingStarry afterStart).pcsOpened = 1
    ∧ (startConversation envGood paintingStarry afterStart).state.pcRef
        ≠ afterStart.pcRef := by
  decide

/-- C1, amended.  `startConversation` has no lifecycle-state guard of its
own: from any state, once the broker payload carries a secret, the call
creates exactly one new peer connection and installs it as the current
handle, setting any previously referenced handle aside unmodified (so an
open one stays open).  Concurrent invocation is prevented only by the UI,
which renders the Start button solely in the `ready` state. -/
theorem c1_guard_amended (st : VisitorState) (env : StartEnv) (p : Painting)
    (h : hasClientSecret env.tokenData = true) :
    (startButtonRendered st = true ↔ st.status = Status.ready)
    ∧ (startConversation env p st).pcsOpened = 1
    ∧ (∀ pc, st.pcRef = some pc →
        pc ∈ (startConversation env p st).state.oldPCs) := by
  refine ⟨by simp [startButtonRendered], ?_, ?_⟩
  · cases hm : env.micResult with
    | error e => simp [startConversation, h, hm]
    | ok u =>
      by_cases hs : env.sdpResponse.ok <;>
        simp [startConversation, h, hm, hs, catchErr, addLogS, modifyPC]
  · intro pc hpc
    cases hm : env.micResult with
    | error e =>
      simp [startConversation, h, hm, catchErr, addLogS, pushPC, hpc]
    | ok u =>
      by_cases hs : env.sdpResponse.ok <;>
        simp [startConversation, h, hm, hs, catchErr, addLogS, modifyPC, pushPC, hpc]

/-- C1, witness for the amended theorem at a concrete state and run. -/
theorem c1_guard_amended_witness :
    (startButtonRendered readyState = true ↔ readyState.status = Status.ready)
    ∧ (startConversation envGood paintingStarry readyState).pcsOpened = 1
    ∧ (∀ pc, readyState.pcRef = some pc →
        pc ∈ (startConversation envGood paintingStarry readyState).state.oldPCs) :=
  c1_guard_amended readyState envGood paintingStarry (by decide)

/-- C2, counterexample.  With an image reference present and the image fetch
failing, the `response.create` event is NOT among the events sent on the
channel (the send of line 185 sits inside the failed `try` block), refuting
the claim that the response-request is still sent; the status does stay
`connected`. -/
theorem c2_response_skipped_counterexample :
    ControlEvent.response_create
      ∉ (dc_onopen paintingStarryImg (Except.error "Failed to fetch") connectedState).1
    ∧ (dc_onopen paintingStarryImg (Except.error "Failed to fetch") connectedState).2.status
        = Status.connected := by
  decide

/-- C2, amended.  When the image fetch or encoding throws, the failure is
only logged and the lifecycle state does not move to `error` — but the
response-request is also skipped: the channel carries exactly the
session-configuration event and nothing else, so the session proceeds
audio-only with no initial model turn requested. -/
theorem c2_image_failure_amended (p : Painting) (u e : String)
    (st : VisitorState) (h : p.imageUrl = some u) :
    (dc_onopen p (Except.error e) st).1
      = [ControlEvent.session_update (sessionConfigOf p)]
    ∧ (dc_onopen p (Except.error e) st).2.status = st.status
    ∧ (dc_onopen p (Except.error e) st).2.errorMsg = st.errorMsg
    ∧ (dc_onopen p (Except.error e) st).2.logs
        = st.logs ++ ["✓ Data channel opened", "Sending session instructions...",
                      "Fetching painting image...", "Image error: " ++ e] := by
  simp [dc_onopen, h, addLogS]

/-- C2, witness for the amended theorem on a concrete failing fetch. -/
theorem c2_image_failure_amended_witness :
    (dc_onopen paintingStarryImg (Except.error "boom") readyState).1
      = [ControlEvent.session_update (sessionConfigOf paintingStarryImg)] :=
  (c2_image_failure_amended paintingStarryImg
    "https://example.org/uploads/starry.png" "boom" readyState rfl).1

/-- C3.  On every run: nothing is sent while the channel is not open; every
conversation-item event is preceded by a session-configuration event; and
every response-request is preceded both by a session-configuration event and
by a conversation-item event. -/
theorem c3_control_event_ordering (chOpen : Bool) (p : Painting)
    (f : Except String ImageBlob) (st : VisitorState) :
    (chOpen = false → sentEvents chOpen p f st = [])
    ∧ (∀ i : Fin (sentEvents chOpen p f st).length,
        ((sentEvents chOpen p f st).get i).kind = "conversation.item.create" →
        ∃ j : Fin (sentEvents chOpen p f st).length,
          (j : Nat) < (i : Nat)
          ∧ ((sentEvents chOpen p f st).get j).kind = "session.update")
    ∧ (∀ i : Fin (sentEvents chOpen p f st).length,
        ((sentEvents chOpen p f st).get i).kind = "response.create" →
        (∃ j : Fin (sentEvents chOpen p f st).length,
          (j : Nat) < (i : Nat)
          ∧ ((sentEvents chOpen p f st).get j).kind = "session.update")
        ∧ (∃ k : Fin (sentEvents chOpen p f st).length,
          (k : Nat) < (i : Nat)
          ∧ ((sentEvents chOpen p f st).get k).kind = "conversation.item.create")) := by
  cases chOpen with
  | false =>
    refine ⟨fun _ => rfl, ?_, ?_⟩ <;>
      · intro i
        exact absurd i.isLt (by simp [sentEvents])
  | true =>
    have hs : sentEvents true p f st = (dc_onopen p f st).1 := rfl
    rcases dc_onopen_shape p f st with h | ⟨item, h⟩
    · refine ⟨fun hff => Bool.noConfusion hff, ?_, ?_⟩
      · rw [hs, h]
        intro i hi
        fin_cases i
        simp [ControlEvent.kind] at hi
      · rw [hs, h]
        intro i hi
        fin_cases i
        simp [ControlEvent.kind] at hi
    · refine ⟨fun hff => Bool.noConfusion hff, ?_, ?_⟩
      · rw [hs, h]
        intro i
        fin_cases i
        · intro hi; simp [ControlEvent.kind] at hi
        · exact fun _ => ⟨⟨0, by simp⟩, by simp, rfl⟩
        · intro hi; simp [ControlEvent.kind] at hi
      · rw [hs, h]
        intro i
        fin_cases i
        · intro hi; simp [ControlEvent.kind] at hi
        · intro hi; simp [ControlEvent.kind] at hi
        · exact fun _ => ⟨⟨⟨0, by simp⟩, by simp, rfl⟩, ⟨1, by simp⟩, by simp, rfl⟩

/-- C3, witness: with the channel not open, the sent trace is empty. -/
theorem c3_control_event_ordering_witness :
    sentEvents false paintingStarry (Except.error "e") readyState = [] :=
  (c3_control_event_ordering false paintingStarry (Except.error "e") readyState).1 rfl

/-- C4, counterexample.  After a successful start a handle exists and holds
the one live microphone track; `stopConversation` returns the state to
`ready` but the microphone track is still live afterwards (no `track.stop()`
is ever called), refuting the claim that all local media tracks are closed. -/
theorem c4_mic_track_counterexample :
    afterStart.pcRef.isSome = true
    ∧ liveLocalTracks afterStart = 1
    ∧ (stopConversation afterStart).status = Status.ready
    ∧ liveLocalTracks (stopConversation afterStart) = 1 := by
  decide

/-- C4, amended.  `stopConversation` is safe from any state: it closes the
current transport and data channel, sets the status to `ready`, and calling
it once or twice leaves zero open transports and zero open data channels
(given no previously leaked open objects) — but it does not stop local media
tracks: the microphone capture track keeps its liveness. -/
theorem c4_stop_amended (st : VisitorState)
    (hpc : ∀ pc ∈ st.oldPCs, pc.closed = true)
    (hdc : ∀ dc ∈ st.oldDCs, dc.closed = true) :
    (stopConversation st).status = Status.ready
    ∧ openTransports (stopConversation st) = 0
    ∧ openDataChannels (stopConversation st) = 0
    ∧ openTransports (stopConversation (stopConversation st)) = 0
    ∧ openDataChannels (stopConversation (stopConversation st)) = 0
    ∧ liveLocalTracks (stopConversation st) = liveLocalTracks st := by
  rcases hp : st.pcRef with _ | pc <;> rcases hd : st.dcRef with _ | dc <;>
    simp [stopConversation, hp, hd, openTransports, openDataChannels,
          liveLocalTracks, liveTracksOfPC, addLogS, List.filter_append,
          filter_open_pc_nil hpc, filter_open_dc_nil hdc] <;>
    omega

/-- C4, witness for the amended theorem at the post-start state. -/
theorem c4_stop_amended_witness :
    (stopConversation afterStart).status = Status.ready
    ∧ openTransports (stopConversation afterStart) = 0
    ∧ openDataChannels (stopConversation afterStart) = 0
    ∧ openTransports (stopConversation (stopConversation afterStart)) = 0
    ∧ openDataChannels (stopConversation (stopConversation afterStart)) = 0
    ∧ liveLocalTracks (stopConversation afterStart) = liveLocalTracks afterStart :=
  c4_stop_amended afterStart (by decide) (by decide)

/-- C5.  `startConversation` itself never reports `connected` — every path
through it (including the one that applies the remote description) ends in
`connecting` or `error`; the status becomes `connected` exactly when the
`pc.onconnectionstatechange` handler observes the transport state
`"connected"`. -/
theorem c5_connected_only_from_transport (env : StartEnv) (p : Painting)
    (st : VisitorState) (s : String) :
    ((startConversation env p st).state.status = Status.connecting
      ∨ (startConversation env p st).state.status = Status.error)
    ∧ (pc_onconnectionstatechange s st).status
        = (if s == "connected" then Status.connected else st.status) := by
  constructor
  · by_cases h : hasClientSecret env.tokenData
    · cases hm : env.micResult with
      | error e => simp [startConversation, h, hm, catchErr, addLogS]
      | ok u =>
        by_cases hs : env.sdpResponse.ok <;>
          simp [startConversation, h, hm, hs, catchErr, addLogS, modifyPC]
    · simp [startConversation, h, catchErr, addLogS]
  · by_cases hc : s == "connected" <;>
      simp [pc_onconnectionstatechange, addLogS, hc]

/-- C6.  When the broker payload lacks the expected secret field, the run
goes straight to `error` with the captured message, creates no peer
connection, leaves the handle ref untouched and submits no offer to the
realtime endpoint. -/
theorem c6_missing_secret_no_negotiation (env : StartEnv) (p : Painting)
    (st : VisitorState) (h : hasClientSecret env.tokenData = false) :
    (startConversation env p st).state.status = Status.error
    ∧ (startConversation env p st).state.errorMsg = "Failed to get ephemeral token"
    ∧ (startConversation env p st).pcsOpened = 0
    ∧ (startConversation env p st).offerSubmitted = false
    ∧ (startConversation env p st).state.pcRef = st.pcRef := by
  simp [startConversation, h, catchErr, addLogS]

/-- C6, witness on a payload with no `client_secret` member. -/
theorem c6_missing_secret_no_negotiation_witness :
    (startConversation envNoSecret paintingStarry readyState).state.status = Status.error
    ∧ (startConversation envNoSecret paintingStarry readyState).state.errorMsg
        = "Failed to get ephemeral token"
    ∧ (startConversation envNoSecret paintingStarry readyState).pcsOpened = 0
    ∧ (startConversation envNoSecret paintingStarry readyState).offerSubmitted = false
    ∧ (startConversation envNoSecret paintingStarry readyState).state.pcRef
        = readyState.pcRef :=
  c6_missing_secret_no_negotiation envNoSecret paintingStarry readyState (by decide)

/-- C7.  A mid-session inbound payload on which the JSON parse throws is
dropped without any effect: the handler returns the state unchanged, so the
trace log gains no entry and the status remains `connected`. -/
theorem c7_malformed_inbound_dropped (st : VisitorState)
    (h : st.status = Status.connected) :
    dc_onmessage none st = st
    ∧ (dc_onmessage none st).logs = st.logs
    ∧ (dc_onmessage none st).status = Status.connected :=
  ⟨rfl, rfl, h⟩

/-- C7, witness at a concrete connected state. -/
theorem c7_malformed_inbound_dropped_witness :
    dc_onmessage none connectedState = connectedState
    ∧ (dc_onmessage none connectedState).logs = connectedState.logs
    ∧ (dc_onmessage none connectedState).status = Status.connected :=
  c7_malformed_inbound_dropped connectedState rfl

/-- C8.  Once negotiation is reached, the offer is submitted; a non-success
endpoint response ends the attempt in `error` with a message carrying the
endpoint's status and body, while a success response is applied as the
remote description (type `answer`, the returned body as SDP) of the current
peer connection, leaving the status at `connecting`. -/
theorem c8_negotiation_response (env : StartEnv) (p : Painting)
    (st : VisitorState) (h1 : hasClientSecret env.tokenData = true)
    (h2 : env.micResult = Except.ok ()) :
    (startConversation env p st).offerSubmitted = true
    ∧ (env.sdpResponse.ok = false →
        (startConversation env p st).state.status = Status.error
        ∧ (startConversation env p st).state.errorMsg
            = "SDP exchange failed: " ++ toString env.sdpResponse.status
              ++ " - " ++ env.sdpResponse.body)
    ∧ (env.sdpResponse.ok = true →
        ∃ pc, (startConversation env p st).state.pcRef = some pc
          ∧ pc.remoteDesc = some { type := "answer", sdp := env.sdpResponse.body }
          ∧ (startConversation env p st).state.status = Status.connecting) := by
  by_cases hs : env.sdpResponse.ok <;>
    simp [startConversation, h1, h2, hs, catchErr, addLogS, modifyPC]

/-- C8, witness on a 401 rejection by the negotiation endpoint. -/
theorem c8_negotiation_response_witness :
    (startConversation envSdpFail paintingStarry readyState).state.status = Status.error
    ∧ (startConversation envSdpFail paintingStarry readyState).state.errorMsg
        = "SDP exchange failed: " ++ toString envSdpFail.sdpResponse.status
          ++ " - " ++ envSdpFail.sdpResponse.body :=
  (c8_negotiation_response envSdpFail paintingStarry readyState
    (by decide) rfl).2.1 rfl

/-- C9.  The first event on the channel is always the session-configuration
event, which carries the painting's resolved instruction text, the
modalities text and audio, the voice `alloy`, and server-VAD turn detection
with threshold 0.5, 300 ms leading padding and 200 ms trailing silence; and
the instruction text the server builds for title "Starry Night" with facts
"Oil on canvas, 1889" contains both "Starry Night" and "1889". -/
theorem c9_session_config_content (p : Painting)
    (f : Except String ImageBlob) (st : VisitorState) :
    (dc_onopen p f st).1.head?
      = some (ControlEvent.session_update (sessionConfigOf p))
    ∧ (sessionConfigOf p).instructions = p.systemInstructions
    ∧ (sessionConfigOf p).modalities = ["text", "audio"]
    ∧ (sessionConfigOf p).voice = "alloy"
    ∧ (sessionConfigOf p).turn_detection
        = { type := "server_vad", threshold := 0.5
            prefix_padding_ms := 300, silence_duration_ms := 200 }
    ∧ strIncludes (sessionConfigOf paintingStarry).instructions "Starry Night" = true
    ∧ strIncludes (sessionConfigOf paintingStarry).instructions "1889" = true := by
  refine ⟨?_, rfl, rfl, rfl, rfl, by decide, by decide⟩
  rcases dc_onopen_shape p f st with h | ⟨item, h⟩ <;> rw [h] <;> rfl

/-- C10.  When the painting carries no image reference, the open handler
sends exactly the session-configuration event: no conversation-item event
and no response-request appears on the channel. -/
theorem c10_image_less_session_config_only (p : Painting)
    (f : Except String ImageBlob) (st : VisitorState) (h : p.imageUrl = none) :
    (dc_onopen p f st).1 = [ControlEvent.session_update (sessionConfigOf p)]
    ∧ (∀ e ∈ (dc_onopen p f st).1, e.kind ≠ "conversation.item.create")
    ∧ (∀ e ∈ (dc_onopen p f st).1, e.kind ≠ "response.create") := by
  have h1 : (dc_onopen p f st).1
      = [ControlEvent.session_update (sessionConfigOf p)] := by
    simp [dc_onopen, h]
  refine ⟨h1, ?_, ?_⟩ <;>
    · rw [h1]
      intro e he
      rw [List.mem_singleton] at he
      subst he
      simp [ControlEvent.kind]

/-- C10, witness at the image-less end-to-end painting. -/
theorem c10_image_less_session_config_only_witness :
    (dc_onopen paintingStarry (Except.error "e") readyState).1
      = [ControlEvent.session_update (sessionConfigOf paintingStarry)] :=
  (c10_image_less_session_config_only paintingStarry (Except.error "e")
    readyState rfl).1

end ArtCritic


